import Mathlib

/-
Shallow embedding of the order/status subsystem of the BroCode spot app:
the relational rows (payments, invitations, attendance, user_drink_selections,
drinks, profiles), the client service operations from services/database.ts
(upsertSelection, deleteSelection, getUserSelections, upsertPayment,
getPayments, upsertInvitation, updateInvitationStatus, upsertAttendance,
voteForDrink), the page-level handlers from HomePage.tsx (handleRSVP,
handleUpdateQuantity), and the two plpgsql triggers
(update_payment_drink_total, update_mission_count_on_attendance).

Identifiers (UUIDs) are modelled as Nat; NUMERIC and INTEGER columns as Int;
a table is a list of rows in insertion order (created_at order). The
PostgreSQL upsert INSERT ... ON CONFLICT (key) DO UPDATE is modelled by a
lookup on the conflict key followed by either a keyed field update or an
append. In a row-level trigger the record NEW is null for DELETE and OLD is
null for INSERT; reading a field of such a null record yields SQL NULL, and
an SQL equality against NULL matches no row. Trigger key arguments are
therefore Option Nat, with none standing for NULL.
-/

namespace Brocode

/-- Payment status enum of the payments table: paid or not_paid. -/
inductive PaymentStatus
| paid
| not_paid
deriving DecidableEq, Repr

/-- Invitation status enum of the invitations table. -/
inductive InvitationStatus
| pending
| confirmed
| declined
deriving DecidableEq, Repr

/-- Errors surfaced by the backend: a CHECK-constraint violation on a write,
or single() finding no row. -/
inductive DbError
| checkViolation
| noRows
deriving DecidableEq, Repr

/-- Row of user_drink_selections: key (spot_id, user_id, drink_brand_id) is
unique; quantity has CHECK (quantity > 0); total_price is stored. -/
structure SelectionRow where
  id : Nat
  spot_id : Nat
  user_id : Nat
  drink_brand_id : Nat
  quantity : Int
  unit_price : Int
  total_price : Int
deriving DecidableEq, Repr

/-- Row of payments: key (spot_id, user_id) is unique; drink_total_amount has
column default 0 (migration part_000). The base payments table DDL is not in
the repository sources; its shape here is the one the client code and the
spec agree on. -/
structure PaymentRow where
  id : Nat
  spot_id : Nat
  user_id : Nat
  status : PaymentStatus
  drink_total_amount : Int
deriving DecidableEq, Repr

/-- Row of invitations: key (spot_id, user_id) is unique. -/
structure InvitationRow where
  id : Nat
  spot_id : Nat
  user_id : Nat
  status : InvitationStatus
deriving DecidableEq, Repr

/-- Row of attendance: key (spot_id, user_id) is unique. -/
structure AttendanceRow where
  id : Nat
  spot_id : Nat
  user_id : Nat
  attended : Bool
deriving DecidableEq, Repr

/-- Row of profiles, restricted to the fields the subsystem touches. -/
structure ProfileRow where
  id : Nat
  mission_count : Int
deriving DecidableEq, Repr

/-- Row of drinks, restricted to the vote fields: votes INTEGER DEFAULT 0 and
voted_by UUID[] DEFAULT empty. -/
structure DrinkRow where
  id : Nat
  votes : Int
  voted_by : List Nat
deriving DecidableEq, Repr

/-- The database state: one list per table, in insertion order, plus a
counter supplying fresh generated row ids. -/
structure DB where
  selections : List SelectionRow
  payments : List PaymentRow
  invitations : List InvitationRow
  attendance : List AttendanceRow
  profiles : List ProfileRow
  drinks : List DrinkRow
  nextId : Nat
deriving Repr

/-- The empty database. -/
def emptyDB : DB :=
  { selections := [], payments := [], invitations := [], attendance := [],
    profiles := [], drinks := [], nextId := 0 }

/-- SQL equality of a non-null key column against a possibly-NULL value:
comparison with NULL matches no row. -/
def sqlEqKey (col : Nat) (v : Option Nat) : Bool :=
  match v with
  | some x => col == x
  | none => false

/-- Conflict-key predicate of user_drink_selections. -/
def selKeyMatch (l : SelectionRow) (s u b : Nat) : Bool :=
  l.spot_id == s && l.user_id == u && l.drink_brand_id == b

/-- Conflict-key predicate of payments. -/
def payKeyMatch (p : PaymentRow) (s u : Nat) : Bool :=
  p.spot_id == s && p.user_id == u

/-- Conflict-key predicate of invitations. -/
def invKeyMatch (i : InvitationRow) (s u : Nat) : Bool :=
  i.spot_id == s && i.user_id == u

/-- Conflict-key predicate of attendance. -/
def attKeyMatch (a : AttendanceRow) (s u : Nat) : Bool :=
  a.spot_id == s && a.user_id == u

/-- Trigger function update_payment_drink_total (migration part_000, lines
100 to 113): UPDATE payments SET drink_total_amount to
COALESCE(SUM(total_price), 0) over user_drink_selections rows whose spot_id
and user_id equal those of NEW, for payments rows whose spot_id and user_id
equal those of NEW. The trigger is attached AFTER INSERT OR UPDATE OR DELETE
FOR EACH ROW; on DELETE the record NEW is null, so both key arguments are
none and neither the UPDATE filter nor the subquery filter matches any row. -/
def update_payment_drink_total (db : DB) (newSpot newUser : Option Nat) : DB :=
  { db with payments := db.payments.map (fun p =>
      if sqlEqKey p.spot_id newSpot && sqlEqKey p.user_id newUser then
        { p with drink_total_amount :=
            ((db.selections.filter (fun l =>
                sqlEqKey l.spot_id newSpot && sqlEqKey l.user_id newUser)).map
              (fun l => l.total_price)).sum }
      else p) }

/-- userDrinkSelectionService.upsertSelection (part_007, lines 2343 to 2395):
computes total_price as quantity times unit_price and upserts on the conflict
key (spot_id, user_id, drink_brand_id). The table CHECK (quantity > 0)
rejects any write with a non-positive quantity. The row-level AFTER trigger
then recomputes the owning payment total with the keys of NEW. -/
def upsertSelection (db : DB) (s u b : Nat) (quantity unit_price : Int) :
    Except DbError (DB × SelectionRow) :=
  let total_price := quantity * unit_price
  if quantity ≤ 0 then Except.error DbError.checkViolation
  else
    match db.selections.find? (fun l => selKeyMatch l s u b) with
    | some l0 =>
        let db1 : DB := { db with selections := db.selections.map (fun l =>
            if selKeyMatch l s u b then
              { l with quantity := quantity, unit_price := unit_price,
                       total_price := total_price }
            else l) }
        Except.ok (update_payment_drink_total db1 (some s) (some u),
          { l0 with quantity := quantity, unit_price := unit_price,
                    total_price := total_price })
    | none =>
        let fresh : SelectionRow :=
          ⟨db.nextId, s, u, b, quantity, unit_price, total_price⟩
        let db1 : DB := { db with selections := db.selections ++ [fresh],
                                  nextId := db.nextId + 1 }
        Except.ok (update_payment_drink_total db1 (some s) (some u), fresh)

/-- Database state after upsertSelection; a rejected write leaves the state
unchanged. -/
def afterUpsertSelection (db : DB) (s u b : Nat) (quantity unit_price : Int) :
    DB :=
  match upsertSelection db s u b quantity unit_price with
  | Except.ok r => r.1
  | Except.error _ => db

/-- userDrinkSelectionService.deleteSelection (part_007, lines 2398 to 2408):
deletes the row by id. The AFTER DELETE row trigger fires with NEW null, so
its recompute matches no payments row. -/
def deleteSelection (db : DB) (selId : Nat) : DB :=
  let db1 : DB :=
    { db with selections := db.selections.filter (fun l => !(l.id == selId)) }
  update_payment_drink_total db1 none none

/-- userDrinkSelectionService.getUserSelections (part_007, lines 2260 to
2294): rows of (spot, user) ordered by created_at descending. Joined brand
display fields are elided. -/
def getUserSelections (db : DB) (s u : Nat) : List SelectionRow :=
  (db.selections.filter (fun l => l.spot_id == s && l.user_id == u)).reverse

/-- paymentService.upsertPayment (part_007, lines 1271 to 1312): upserts
exactly the columns spot_id, user_id and status on the conflict key
(spot_id, user_id); a fresh row receives the drink_total_amount column
default 0, an existing row keeps its stored drink_total_amount. -/
def upsertPayment (db : DB) (s u : Nat) (status : PaymentStatus) :
    DB × PaymentRow :=
  match db.payments.find? (fun p => payKeyMatch p s u) with
  | some p0 =>
      ({ db with payments := db.payments.map (fun p =>
          if payKeyMatch p s u then { p with status := status } else p) },
        { p0 with status := status })
  | none =>
      let fresh : PaymentRow := ⟨db.nextId, s, u, status, 0⟩
      ({ db with payments := db.payments ++ [fresh],
                 nextId := db.nextId + 1 }, fresh)

/-- Shape of a row returned by paymentService.getPayments: the mapping in the
source builds an object from id, spot_id, user_id, profiles and status only,
so the optional drink_total_amount field of the Payment interface is left
undefined, modelled as none. Joined profile display fields are elided. -/
structure PaymentView where
  id : Nat
  spot_id : Nat
  user_id : Nat
  status : PaymentStatus
  drink_total_amount : Option Int
deriving DecidableEq, Repr

/-- paymentService.getPayments (part_007, lines 1237 to 1268): selects the
payments of a spot ordered by created_at ascending and maps each row to an
object carrying id, spot_id, user_id and status; drink_total_amount is not
copied into the result. -/
def getPayments (db : DB) (s : Nat) : List PaymentView :=
  (db.payments.filter (fun p => p.spot_id == s)).map (fun p =>
    ⟨p.id, p.spot_id, p.user_id, p.status, none⟩)

/-- invitationService.upsertInvitation (part_007, lines 1152 to 1191):
upserts spot_id, user_id and status on the conflict key (spot_id, user_id). -/
def upsertInvitation (db : DB) (s u : Nat) (status : InvitationStatus) :
    DB × InvitationRow :=
  match db.invitations.find? (fun i => invKeyMatch i s u) with
  | some i0 =>
      ({ db with invitations := db.invitations.map (fun i =>
          if invKeyMatch i s u then { i with status := status } else i) },
        { i0 with status := status })
  | none =>
      let fresh : InvitationRow := ⟨db.nextId, s, u, status⟩
      ({ db with invitations := db.invitations ++ [fresh],
                 nextId := db.nextId + 1 }, fresh)

/-- invitationService.updateInvitationStatus (part_007, lines 1194 to 1212):
UPDATE invitations SET status WHERE id equals the given id. -/
def updateInvitationStatus (db : DB) (invId : Nat) (status : InvitationStatus) :
    DB :=
  { db with invitations := db.invitations.map (fun i =>
      if i.id == invId then { i with status := status } else i) }

/-- Trigger function update_mission_count_on_attendance
(supabase_migration_extended.sql, lines 138 to 157): fires AFTER INSERT OR
UPDATE on attendance WHEN NEW.attended is true; increments the profile
mission_count of NEW.user_id when NEW.attended is true and OLD.attended is
NULL or false. On INSERT the record OLD is null, so OLD.attended reads as
NULL, modelled by oldAttended being none. -/
def update_mission_count_on_attendance (db : DB) (userId : Nat)
    (newAttended : Bool) (oldAttended : Option Bool) : DB :=
  if newAttended && (oldAttended == none || oldAttended == some false) then
    { db with profiles := db.profiles.map (fun p =>
        if p.id == userId then { p with mission_count := p.mission_count + 1 }
        else p) }
  else db

/-- attendanceService.upsertAttendance (part_007, lines 2484 to 2514):
upserts spot_id, user_id and attended on the conflict key (spot_id, user_id);
the AFTER row trigger then fires with the old attended value of the
conflicting row, or with OLD null on a fresh insert. -/
def upsertAttendance (db : DB) (s u : Nat) (attended : Bool) :
    DB × AttendanceRow :=
  match db.attendance.find? (fun a => attKeyMatch a s u) with
  | some a0 =>
      let db1 : DB := { db with attendance := db.attendance.map (fun a =>
          if attKeyMatch a s u then { a with attended := attended } else a) }
      (update_mission_count_on_attendance db1 u attended (some a0.attended),
        { a0 with attended := attended })
  | none =>
      let fresh : AttendanceRow := ⟨db.nextId, s, u, attended⟩
      let db1 : DB := { db with attendance := db.attendance ++ [fresh],
                                nextId := db.nextId + 1 }
      (update_mission_count_on_attendance db1 u attended none, fresh)

/-- drinkService.voteForDrink (part_007, lines 1580 to 1638): reads the drink
row by id with single(), toggles the vote of the user: if the user id is in
voted_by, removes every occurrence and sets votes to max 0 (votes - 1),
otherwise appends the user id and sets votes to votes + 1; then writes votes
and voted_by back to the row. The JS coercion of a null votes column to 0 is
the identity on the Int model. -/
def voteForDrink (db : DB) (drinkId userId : Nat) :
    Except DbError (DB × DrinkRow) :=
  match db.drinks.find? (fun d => d.id == drinkId) with
  | none => Except.error DbError.noRows
  | some d =>
      let hasVoted := d.voted_by.contains userId
      let updatedVotedBy :=
        if hasVoted then d.voted_by.filter (fun i => !(i == userId))
        else d.voted_by ++ [userId]
      let votes := if hasVoted then max 0 (d.votes - 1) else d.votes + 1
      let db1 : DB := { db with drinks := db.drinks.map (fun e =>
          if e.id == drinkId then
            { e with votes := votes, voted_by := updatedVotedBy }
          else e) }
      Except.ok (db1, { d with votes := votes, voted_by := updatedVotedBy })

/-- Database state after voteForDrink; a failed lookup leaves the state
unchanged. -/
def afterVote (db : DB) (drinkId userId : Nat) : DB :=
  match voteForDrink db drinkId userId with
  | Except.ok r => r.1
  | Except.error _ => db

/-- handleRSVP and its sibling handleCreateRSVP (HomePage.tsx, lines 487 to
556): commit the invitation status change; when the new status is confirmed,
bootstrap the payment row with upsertPayment in a nested try block whose
failure is only logged, never failing the RSVP action. The Bool argument
models whether that payment write fails; the Bool result is whether the
handler reports success (no alert). -/
def handleRSVP (db : DB) (invId : Nat) (status : InvitationStatus)
    (spotId userId : Nat) (paymentWriteFails : Bool) : DB × Bool :=
  let db1 := updateInvitationStatus db invId status
  if status == InvitationStatus.confirmed then
    if paymentWriteFails then (db1, true)
    else ((upsertPayment db1 spotId userId PaymentStatus.not_paid).1, true)
  else (db1, true)

/-- handleUpdateQuantity (part_004, lines 499 to 513): a non-positive new
quantity deletes the selection line by id; a positive one upserts the line
with the new quantity and its existing unit_price. -/
def handleUpdateQuantity (db : DB) (sel : SelectionRow) (newQuantity : Int) :
    DB :=
  if newQuantity ≤ 0 then deleteSelection db sel.id
  else afterUpsertSelection db sel.spot_id sel.user_id sel.drink_brand_id
    newQuantity sel.unit_price

/-- Lookup of the payments row of a (spot, user) pair. -/
def paymentFor (db : DB) (s u : Nat) : Option PaymentRow :=
  db.payments.find? (fun p => payKeyMatch p s u)

/-- Lookup of the mission_count of a profile id. -/
def missionCountOf (db : DB) (u : Nat) : Option Int :=
  (db.profiles.find? (fun p => p.id == u)).map (fun p => p.mission_count)

/-- Lookup of the status of an invitation id. -/
def invitationStatusOf (db : DB) (invId : Nat) : Option InvitationStatus :=
  (db.invitations.find? (fun i => i.id == invId)).map (fun i => i.status)

/-- Lookup of a drinks row by id. -/
def drinkById (db : DB) (drinkId : Nat) : Option DrinkRow :=
  db.drinks.find? (fun d => d.id == drinkId)

/-- Concrete state for the delete recompute check: one selection line of
total 100 for spot 1 and user 1, whose payment row carries the matching
total 100. -/
def dbStaleTotal : DB :=
  { emptyDB with
    selections := [⟨10, 1, 1, 3, 1, 100, 100⟩],
    payments := [⟨20, 1, 1, PaymentStatus.not_paid, 100⟩],
    nextId := 30 }

/-- Scenario state of spec property 7 after the invitation upsert and the
single payment upsert for spot 1 and user 2. -/
def dbScenarioAfterPayment : DB :=
  (upsertPayment (upsertInvitation emptyDB 1 2 InvitationStatus.confirmed).1
    1 2 PaymentStatus.not_paid).1

/-- Scenario state of spec property 7 after the subsequent selection upsert
of brand 7 with quantity 2 at unit price 100. -/
def dbScenarioAfterSelection : DB :=
  afterUpsertSelection dbScenarioAfterPayment 1 2 7 2 100

/-- Concrete state with a drink whose votes counter sits at the floor 0 while
user 5 is in its voter set. -/
def dbDrinkFloor : DB :=
  { emptyDB with drinks := [⟨1, 0, [5]⟩], nextId := 2 }

/-- Concrete state with an already paid payment row and a pending invitation
for spot 1 and user 2. -/
def dbPaidPayment : DB :=
  { emptyDB with
    payments := [⟨0, 1, 2, PaymentStatus.paid, 0⟩],
    invitations := [⟨1, 1, 2, InvitationStatus.pending⟩],
    nextId := 2 }

/-- Concrete state with a single profile of mission_count 5 and no
attendance rows. -/
def dbProfileOnly : DB :=
  { emptyDB with profiles := [⟨2, 5⟩], nextId := 3 }

/-- Concrete state with one selection line of quantity 1 at unit price 100
for spot 1, user 2 and brand 3. -/
def dbOneSelection : DB :=
  { emptyDB with selections := [⟨10, 1, 2, 3, 1, 100, 100⟩], nextId := 11 }

/-- Concrete state with a drink of votes 2 whose voter set holds users 5
and 9. -/
def dbDrinkPair : DB :=
  { emptyDB with drinks := [⟨1, 2, [5, 9]⟩], nextId := 2 }

/-- countP is unchanged by mapping a function that preserves the predicate
pointwise. -/
theorem countP_map_pres {α : Type} (p : α → Bool) (g : α → α)
    (h : ∀ x, p (g x) = p x) :
    ∀ l : List α, (l.map g).countP p = l.countP p
  | [] => rfl
  | x :: t => by
    simp only [List.map_cons, List.countP_cons, h, countP_map_pres p g h t]

/-- find? commutes with mapping a function that preserves the predicate
pointwise. -/
theorem find?_map_pres {α : Type} (p : α → Bool) (g : α → α)
    (h : ∀ x, p (g x) = p x) :
    ∀ l : List α, (l.map g).find? p = (l.find? p).map g
  | [] => rfl
  | x :: t => by
    have ht := find?_map_pres p g h t
    cases hx : p x
    · have hgx : p (g x) = false := (h x).trans hx
      simp [List.find?_cons, hx, hgx, ht]
    · have hgx : p (g x) = true := (h x).trans hx
      simp [List.find?_cons, hx, hgx]

/-- Every element of a predicate-preserving keyed map update that satisfies
the predicate satisfies any property enjoyed by updates of matching rows. -/
theorem mem_map_update_prop {α : Type} (p : α → Bool) (g : α → α)
    (h : ∀ x, p (g x) = p x) (P : α → Prop)
    (hP : ∀ x, p x = true → P (g x)) :
    ∀ l : List α, ∀ y ∈ l.map g, p y = true → P y := by
  intro l y hy hpy
  obtain ⟨x, hx, rfl⟩ := List.mem_map.mp hy
  cases hpx : p x
  · rw [h x, hpx] at hpy
    exact absurd hpy (by simp)
  · exact hP x hpx

/-- The keyed field update of upsertSelection preserves the conflict-key
predicate of the row it rewrites. -/
theorem selKeyMatch_update (s u b : Nat) (q pu : Int) (x : SelectionRow) :
    selKeyMatch (if selKeyMatch x s u b then
      { x with quantity := q, unit_price := pu, total_price := q * pu }
      else x) s u b = selKeyMatch x s u b := by
  cases hx : selKeyMatch x s u b
  · simp [hx]
  · simp [hx, selKeyMatch] at hx ⊢
    simp [hx]

/-- On the conflict (update) path, upsertSelection rewrites exactly the rows
of the conflict key. -/
theorem afterUpsertSelection_selections_update (db : DB) (s u b : Nat)
    (q pu : Int) (hq : 0 < q) (l0 : SelectionRow)
    (hf : db.selections.find? (fun l => selKeyMatch l s u b) = some l0) :
    (afterUpsertSelection db s u b q pu).selections =
      db.selections.map (fun l => if selKeyMatch l s u b then
        { l with quantity := q, unit_price := pu, total_price := q * pu }
        else l) := by
  have hq' : ¬ q ≤ 0 := not_le.mpr hq
  simp [afterUpsertSelection, upsertSelection, hq', hf,
    update_payment_drink_total]

/-- On the no-conflict (insert) path, upsertSelection appends the fresh row. -/
theorem afterUpsertSelection_selections_insert (db : DB) (s u b : Nat)
    (q pu : Int) (hq : 0 < q)
    (hf : db.selections.find? (fun l => selKeyMatch l s u b) = none) :
    (afterUpsertSelection db s u b q pu).selections =
      db.selections ++ [⟨db.nextId, s, u, b, q, pu, q * pu⟩] := by
  have hq' : ¬ q ≤ 0 := not_le.mpr hq
  simp [afterUpsertSelection, upsertSelection, hq', hf,
    update_payment_drink_total]

/-- After one upsertSelection with positive quantity on a state holding at
most one row of the key, the key has exactly one row. -/
theorem afterUpsertSelection_countP_one (db : DB) (s u b : Nat) (q pu : Int)
    (hq : 0 < q)
    (huniq : db.selections.countP (fun l => selKeyMatch l s u b) ≤ 1) :
    (afterUpsertSelection db s u b q pu).selections.countP
      (fun l => selKeyMatch l s u b) = 1 := by
  cases hf : db.selections.find? (fun l => selKeyMatch l s u b) with
  | some l0 =>
    rw [afterUpsertSelection_selections_update db s u b q pu hq l0 hf,
      countP_map_pres _ _ (selKeyMatch_update s u b q pu)]
    have hmem := List.mem_of_find?_eq_some hf
    have hl0 : selKeyMatch l0 s u b = true := by
      have h := List.find?_some hf
      simpa using h
    have hpos : 0 < db.selections.countP (fun l => selKeyMatch l s u b) :=
      List.countP_pos_iff.mpr ⟨l0, hmem, hl0⟩
    omega
  | none =>
    have h0 : db.selections.countP (fun l => selKeyMatch l s u b) = 0 :=
      List.countP_eq_zero.mpr (List.find?_eq_none.mp hf)
    rw [afterUpsertSelection_selections_insert db s u b q pu hq hf,
      List.countP_append, h0]
    simp [selKeyMatch]

/-- After one upsertSelection with positive quantity, every row of the key
carries the written quantity, unit_price and derived total_price. -/
theorem afterUpsertSelection_fields (db : DB) (s u b : Nat) (q pu : Int)
    (hq : 0 < q) :
    ∀ l ∈ (afterUpsertSelection db s u b q pu).selections,
      selKeyMatch l s u b = true →
      l.quantity = q ∧ l.unit_price = pu ∧ l.total_price = q * pu := by
  cases hf : db.selections.find? (fun l => selKeyMatch l s u b) with
  | some l0 =>
    rw [afterUpsertSelection_selections_update db s u b q pu hq l0 hf]
    exact mem_map_update_prop (fun l => selKeyMatch l s u b)
      (fun l => if selKeyMatch l s u b then
        { l with quantity := q, unit_price := pu, total_price := q * pu }
        else l)
      (selKeyMatch_update s u b q pu)
      (fun l => l.quantity = q ∧ l.unit_price = pu ∧ l.total_price = q * pu)
      (fun x hpx => by simp [hpx]) _
  | none =>
    rw [afterUpsertSelection_selections_insert db s u b q pu hq hf]
    intro l hl hkey
    rcases List.mem_append.mp hl with h | h
    · exact absurd hkey (by simpa using List.find?_eq_none.mp hf l h)
    · have : l = ⟨db.nextId, s, u, b, q, pu, q * pu⟩ := by simpa using h
      subst this
      exact ⟨rfl, rfl, rfl⟩

/-- C4 amended: for every positive quantity, calling upsertSelection twice
with identical arguments on a state holding at most one row of the key
(spot, user, brand) results in exactly one row of that key, whose
total_price equals quantity times unit_price. -/
theorem upsertSelection_twice_one_row (db : DB) (s u b : Nat) (q pu : Int)
    (hq : 0 < q)
    (huniq : db.selections.countP (fun l => selKeyMatch l s u b) ≤ 1) :
    ((afterUpsertSelection (afterUpsertSelection db s u b q pu)
        s u b q pu).selections.countP (fun l => selKeyMatch l s u b) = 1)
    ∧ ∀ l ∈ (afterUpsertSelection (afterUpsertSelection db s u b q pu)
        s u b q pu).selections,
        selKeyMatch l s u b = true →
        l.quantity = q ∧ l.unit_price = pu ∧ l.total_price = q * pu := by
  have h1 := afterUpsertSelection_countP_one db s u b q pu hq huniq
  exact ⟨afterUpsertSelection_countP_one _ s u b q pu hq (by omega),
    afterUpsertSelection_fields _ s u b q pu hq⟩

/-- Witness for the amended C4 theorem at a concrete input. -/
theorem upsertSelection_twice_one_row_witness :
    ((0 : Int) < 2
      ∧ emptyDB.selections.countP (fun l => selKeyMatch l 1 2 3) ≤ 1)
    ∧ (((afterUpsertSelection (afterUpsertSelection emptyDB 1 2 3 2 100)
        1 2 3 2 100).selections.countP (fun l => selKeyMatch l 1 2 3) = 1)
    ∧ ∀ l ∈ (afterUpsertSelection (afterUpsertSelection emptyDB 1 2 3 2 100)
        1 2 3 2 100).selections,
        selKeyMatch l 1 2 3 = true →
        l.quantity = 2 ∧ l.unit_price = 100 ∧ l.total_price = 2 * 100) :=
  ⟨⟨by decide, by decide⟩,
    upsertSelection_twice_one_row emptyDB 1 2 3 2 100 (by decide) (by decide)⟩

/-- C1: deleting the last selection line of (spot 1, user 1) leaves the spot
with no remaining lines for that pair, yet the payments row keeps the stale
drink_total_amount 100 instead of 0, because the AFTER DELETE trigger reads
its keys from the null record NEW and so updates no payments row. -/
theorem deleteSelection_leaves_stale_drink_total :
    getUserSelections (deleteSelection dbStaleTotal 10) 1 1 = []
    ∧ (paymentFor (deleteSelection dbStaleTotal 10) 1 1).map
        (fun p => p.drink_total_amount) = some 100 := by decide

/-- C2 counterexample: in the scenario of spec property 7 the row returned by
getPayments for user 2 never shows drink_total_amount 0 after the payment
upsert, nor 200 after the selection upsert, because the getPayments mapping
does not copy drink_total_amount into its result. -/
theorem getPayments_row_lacks_drink_total :
    (∀ r ∈ getPayments dbScenarioAfterPayment 1, r.user_id = 2 →
      r.drink_total_amount ≠ some 0)
    ∧ (∀ r ∈ getPayments dbScenarioAfterSelection 1, r.user_id = 2 →
      r.drink_total_amount ≠ some 200) := by decide

/-- C2 amended: after upsertInvitation(confirmed) and one upsertPayment,
getPayments returns exactly one row for user 2 with status not_paid and with
its drink_total_amount field unset; the stored payments row has
drink_total_amount 0, and after upsertSelection of quantity 2 at unit price
100 the stored payments row has drink_total_amount 200. -/
theorem scenario_stored_payment_totals :
    getPayments dbScenarioAfterPayment 1 =
      [⟨1, 1, 2, PaymentStatus.not_paid, none⟩]
    ∧ (paymentFor dbScenarioAfterPayment 1 2).map
        (fun p => (p.status, p.drink_total_amount)) =
      some (PaymentStatus.not_paid, 0)
    ∧ (paymentFor dbScenarioAfterSelection 1 2).map
        (fun p => (p.status, p.drink_total_amount)) =
      some (PaymentStatus.not_paid, 200) := by decide

/-- C4 counterexample: with quantity 0 the CHECK constraint quantity > 0
rejects the write, so two identical upsertSelection calls on an empty
database leave no row for the key, not exactly one. -/
theorem upsertSelection_zero_quantity_no_row :
    (upsertSelection emptyDB 1 2 3 0 100).isOk = false
    ∧ (afterUpsertSelection (afterUpsertSelection emptyDB 1 2 3 0 100)
        1 2 3 0 100).selections.countP (fun l => selKeyMatch l 1 2 3) ≠ 1 := by
  decide

/-- C5 counterexample: on a drink with votes 0 whose voter set already holds
user 5, toggling the vote twice ends with votes 1, not the original 0,
because the decrement is floored at 0. -/
theorem voteForDrink_twice_not_self_inverse :
    (drinkById dbDrinkFloor 1).map (fun d => d.votes) = some 0
    ∧ (drinkById (afterVote (afterVote dbDrinkFloor 1 5) 1 5) 1).map
        (fun d => d.votes) = some 1 := by decide

/-- The keyed status update of upsertPayment preserves the payments conflict
key of the row it rewrites. -/
theorem payKeyMatch_update (s u : Nat) (st : PaymentStatus) (x : PaymentRow) :
    payKeyMatch (if payKeyMatch x s u then { x with status := st } else x)
      s u = payKeyMatch x s u := by
  cases hx : payKeyMatch x s u
  · simp [hx]
  · simp [hx, payKeyMatch] at hx ⊢
    simp [hx]

/-- Effect of upsertPayment on the stored row of its conflict key: an
existing row keeps everything but status, a fresh row starts with the
drink_total_amount column default 0. -/
theorem upsertPayment_paymentFor (db : DB) (s u : Nat) (st : PaymentStatus) :
    paymentFor (upsertPayment db s u st).1 s u =
      match paymentFor db s u with
      | some p0 => some { p0 with status := st }
      | none => some ⟨db.nextId, s, u, st, 0⟩ := by
  cases hf : paymentFor db s u with
  | some p0 =>
    simp only [paymentFor] at hf
    have hp0 : payKeyMatch p0 s u = true := by
      have h := List.find?_some hf
      simpa using h
    simp only [paymentFor, upsertPayment, hf]
    rw [find?_map_pres (fun p => payKeyMatch p s u)
      (fun p => if payKeyMatch p s u then { p with status := st } else p)
      (payKeyMatch_update s u st) db.payments, hf]
    simp [hp0]
  | none =>
    simp only [paymentFor] at hf
    simp only [paymentFor, upsertPayment, hf]
    rw [List.find?_append, hf]
    simp [payKeyMatch]

/-- Number of rows a given user contributes to the getPayments result of a
spot, as a count over the stored payments table. -/
theorem getPayments_user_count (db : DB) (s u : Nat) :
    ((getPayments db s).filter (fun r => r.user_id == u)).length =
      db.payments.countP (fun p => payKeyMatch p s u) := by
  show (((db.payments.filter (fun p => p.spot_id == s)).map (fun p =>
      (⟨p.id, p.spot_id, p.user_id, p.status, none⟩ : PaymentView))).filter
    (fun r => r.user_id == u)).length =
      db.payments.countP (fun p => payKeyMatch p s u)
  induction db.payments with
  | nil => rfl
  | cons p t ih =>
    cases hs : (p.spot_id == s) with
    | false =>
      simp [List.filter_cons, hs, List.countP_cons, payKeyMatch, ih]
    | true =>
      cases hu : (p.user_id == u) with
      | false =>
        simp [List.filter_cons, hs, hu, List.countP_cons, payKeyMatch, ih]
      | true =>
        simp [List.filter_cons, hs, hu, List.countP_cons, payKeyMatch, ih]

/-- C10: upsertPayment writes only the spot_id, user_id and status columns:
when a row of the conflict key exists it keeps its id and its stored
drink_total_amount and only its status is replaced, while a fresh row is
created with the drink_total_amount column default 0. -/
theorem upsertPayment_frame (db : DB) (s u : Nat) (st : PaymentStatus) :
    (∀ p0, paymentFor db s u = some p0 →
      paymentFor (upsertPayment db s u st).1 s u =
        some { p0 with status := st })
    ∧ (paymentFor db s u = none →
      paymentFor (upsertPayment db s u st).1 s u =
        some ⟨db.nextId, s, u, st, 0⟩) := by
  constructor
  · intro p0 hf
    rw [upsertPayment_paymentFor, hf]
  · intro hf
    rw [upsertPayment_paymentFor, hf]

/-- Witness for the C10 frame theorem at concrete inputs covering both the
conflict path and the fresh-insert path. -/
theorem upsertPayment_frame_witness :
    (paymentFor dbPaidPayment 1 2 = some ⟨0, 1, 2, PaymentStatus.paid, 0⟩
      ∧ paymentFor
          (upsertPayment dbPaidPayment 1 2 PaymentStatus.not_paid).1 1 2 =
        some ⟨0, 1, 2, PaymentStatus.not_paid, 0⟩)
    ∧ (paymentFor emptyDB 1 2 = none
      ∧ paymentFor (upsertPayment emptyDB 1 2 PaymentStatus.not_paid).1 1 2 =
        some ⟨0, 1, 2, PaymentStatus.not_paid, 0⟩) :=
  ⟨⟨by decide,
    (upsertPayment_frame dbPaidPayment 1 2 PaymentStatus.not_paid).1
      ⟨0, 1, 2, PaymentStatus.paid, 0⟩ (by decide)⟩,
   ⟨by decide,
    (upsertPayment_frame emptyDB 1 2 PaymentStatus.not_paid).2 (by decide)⟩⟩

/-- C8 amended: the RSVP confirmation flow does mutate payment status: when
a payment row exists for (spot, user) and the bootstrap write succeeds,
handleRSVP with status confirmed replaces the stored status of that row with
not_paid, keeping its id and drink_total_amount; a prior paid status is not
preserved. -/
theorem confirm_flow_payment_status (db : DB) (s u invId : Nat)
    (p0 : PaymentRow) (hf : paymentFor db s u = some p0) :
    paymentFor ((handleRSVP db invId InvitationStatus.confirmed s u false).1)
      s u = some { p0 with status := PaymentStatus.not_paid } := by
  have hsame : paymentFor (updateInvitationStatus db invId
      InvitationStatus.confirmed) s u = some p0 := hf
  have h := (upsertPayment_paymentFor (updateInvitationStatus db invId
      InvitationStatus.confirmed) s u PaymentStatus.not_paid)
  rw [hsame] at h
  exact h

/-- Witness for the amended C8 theorem at a concrete input. -/
theorem confirm_flow_payment_status_witness :
    paymentFor dbPaidPayment 1 2 = some ⟨0, 1, 2, PaymentStatus.paid, 0⟩
    ∧ paymentFor
        ((handleRSVP dbPaidPayment 1 InvitationStatus.confirmed 1 2 false).1)
        1 2 = some ⟨0, 1, 2, PaymentStatus.not_paid, 0⟩ :=
  ⟨by decide,
    confirm_flow_payment_status dbPaidPayment 1 2 1
      ⟨0, 1, 2, PaymentStatus.paid, 0⟩ (by decide)⟩

/-- C7: when a (spot, user) pair already has exactly one payment row,
confirming the invitation again leaves getPayments with exactly one row for
that user. -/
theorem confirm_again_single_payment_row (db : DB) (s u invId : Nat)
    (hone : db.payments.countP (fun p => payKeyMatch p s u) = 1) :
    ((getPayments ((handleRSVP db invId InvitationStatus.confirmed s u
        false).1) s).filter (fun r => r.user_id == u)).length = 1 := by
  obtain ⟨p1, hp1mem, hp1⟩ : ∃ x ∈ db.payments, payKeyMatch x s u :=
    List.countP_pos_iff.mp (by omega)
  obtain ⟨p2, hf⟩ : ∃ p2,
      db.payments.find? (fun p => payKeyMatch p s u) = some p2 :=
    Option.isSome_iff_exists.mp (List.find?_isSome.mpr ⟨p1, hp1mem, hp1⟩)
  rw [getPayments_user_count]
  have hred : ((handleRSVP db invId InvitationStatus.confirmed s u
      false).1).payments = db.payments.map (fun p =>
        if payKeyMatch p s u then { p with status := PaymentStatus.not_paid }
        else p) := by
    simp [handleRSVP, upsertPayment, updateInvitationStatus, hf]
  rw [hred, countP_map_pres (fun p => payKeyMatch p s u)
    (fun p => if payKeyMatch p s u then { p with status := PaymentStatus.not_paid } else p)
    (payKeyMatch_update s u PaymentStatus.not_paid) db.payments, hone]

/-- Witness for the C7 theorem at a concrete input. -/
theorem confirm_again_single_payment_row_witness :
    dbPaidPayment.payments.countP (fun p => payKeyMatch p 1 2) = 1
    ∧ ((getPayments ((handleRSVP dbPaidPayment 1 InvitationStatus.confirmed
        1 2 false).1) 1).filter (fun r => r.user_id == 2)).length = 1 :=
  ⟨by decide, confirm_again_single_payment_row dbPaidPayment 1 2 1 (by decide)⟩

/-- C6: when the payment bootstrap write fails during handleRSVP with status
confirmed, the handler still reports success, the payments table is left
untouched, and the invitation status change to confirmed has committed. -/
theorem rsvp_success_despite_payment_failure (db : DB) (s u : Nat)
    (inv : InvitationRow) (hmem : inv ∈ db.invitations) :
    (handleRSVP db inv.id InvitationStatus.confirmed s u true).2 = true
    ∧ ((handleRSVP db inv.id InvitationStatus.confirmed s u true).1).payments
        = db.payments
    ∧ invitationStatusOf
        ((handleRSVP db inv.id InvitationStatus.confirmed s u true).1) inv.id
        = some InvitationStatus.confirmed := by
  refine ⟨rfl, rfl, ?_⟩
  have hpres : ∀ x : InvitationRow,
      ((if x.id == inv.id then { x with status := InvitationStatus.confirmed }
        else x).id == inv.id) = (x.id == inv.id) := by
    intro x
    cases hx : (x.id == inv.id) <;> simp [hx]
  obtain ⟨i0, hf⟩ : ∃ i0,
      db.invitations.find? (fun i => i.id == inv.id) = some i0 :=
    Option.isSome_iff_exists.mp (List.find?_isSome.mpr ⟨inv, hmem, by simp⟩)
  have hi0 : (i0.id == inv.id) = true := by
    have h := List.find?_some hf
    simpa using h
  have hred : (handleRSVP db inv.id InvitationStatus.confirmed s u true).1 =
      updateInvitationStatus db inv.id InvitationStatus.confirmed := rfl
  rw [hred]
  simp only [updateInvitationStatus, invitationStatusOf]
  rw [find?_map_pres (fun i => i.id == inv.id)
    (fun i => if i.id == inv.id then
      { i with status := InvitationStatus.confirmed } else i)
    hpres db.invitations, hf]
  have hi0' : i0.id = inv.id := by simpa using hi0
  simp [hi0']

/-- Witness for the C6 theorem at a concrete input. -/
theorem rsvp_success_despite_payment_failure_witness :
    (⟨1, 1, 2, InvitationStatus.pending⟩ : InvitationRow)
        ∈ dbPaidPayment.invitations
    ∧ ((handleRSVP dbPaidPayment 1 InvitationStatus.confirmed 1 2 true).2
        = true
      ∧ ((handleRSVP dbPaidPayment 1 InvitationStatus.confirmed
          1 2 true).1).payments = dbPaidPayment.payments
      ∧ invitationStatusOf
          ((handleRSVP dbPaidPayment 1 InvitationStatus.confirmed
            1 2 true).1) 1 = some InvitationStatus.confirmed) :=
  ⟨by decide,
    rsvp_success_despite_payment_failure dbPaidPayment 1 2
      ⟨1, 1, 2, InvitationStatus.pending⟩ (by decide)⟩

/-- A profile-keyed mission-count increment preserves the profile id
predicate. -/
theorem profIdMatch_update (u : Nat) (x : ProfileRow) :
    ((if x.id == u then { x with mission_count := x.mission_count + 1 }
      else x).id == u) = (x.id == u) := by
  cases hx : (x.id == u) <;> simp [hx]

/-- When the conflicting attendance row already has attended true, the
upsert leaves profiles untouched: the trigger guard blocks the increment. -/
theorem upsertAttendance_update_true (db : DB) (s u : Nat)
    (a0 : AttendanceRow)
    (hf : db.attendance.find? (fun a => attKeyMatch a s u) = some a0)
    (ha : a0.attended = true) :
    ((upsertAttendance db s u true).1).profiles = db.profiles := by
  simp only [upsertAttendance, hf]
  rw [ha]
  rfl

/-- C3: with no prior attendance row for (spot, user) and a profile holding
mission_count N, two consecutive upsertAttendance calls with attended true
leave the mission_count at N + 1, not N + 2: the guarded trigger increments
on the inserting call only, and the second call sees an old attended value
of true. -/
theorem upsertAttendance_twice_mission_count (db : DB) (s u : Nat) (N : Int)
    (hnone : db.attendance.countP (fun a => attKeyMatch a s u) = 0)
    (hprof : missionCountOf db u = some N) :
    missionCountOf
      ((upsertAttendance ((upsertAttendance db s u true).1) s u true).1) u
      = some (N + 1) := by
  have hf0 : db.attendance.find? (fun a => attKeyMatch a s u) = none :=
    List.find?_eq_none.mpr (List.countP_eq_zero.mp hnone)
  have h1 : (upsertAttendance db s u true).1 =
      { db with
        attendance := db.attendance ++ [⟨db.nextId, s, u, true⟩],
        nextId := db.nextId + 1,
        profiles := db.profiles.map (fun p => if p.id == u then
          { p with mission_count := p.mission_count + 1 } else p) } := by
    simp only [upsertAttendance, hf0]
    rfl
  rw [h1]
  have hf1 : ({ db with
      attendance := db.attendance ++ [⟨db.nextId, s, u, true⟩],
      nextId := db.nextId + 1,
      profiles := db.profiles.map (fun p => if p.id == u then
        { p with mission_count := p.mission_count + 1 } else p) }
        : DB).attendance.find? (fun a => attKeyMatch a s u) =
      some ⟨db.nextId, s, u, true⟩ := by
    show (db.attendance ++ [(⟨db.nextId, s, u, true⟩ : AttendanceRow)]).find?
      (fun a => attKeyMatch a s u) = some ⟨db.nextId, s, u, true⟩
    rw [List.find?_append, hf0]
    simp [attKeyMatch]
  have h2 := upsertAttendance_update_true _ s u ⟨db.nextId, s, u, true⟩
    hf1 rfl
  simp only [missionCountOf]
  rw [h2]
  show ((db.profiles.map (fun p => if p.id == u then
      { p with mission_count := p.mission_count + 1 } else p)).find?
    (fun p => p.id == u)).map (fun p => p.mission_count) = some (N + 1)
  rw [find?_map_pres (fun p => p.id == u)
    (fun p => if p.id == u then
      { p with mission_count := p.mission_count + 1 } else p)
    (profIdMatch_update u) db.profiles]
  simp only [missionCountOf] at hprof
  cases hq : db.profiles.find? (fun p => p.id == u) with
  | none =>
    rw [hq] at hprof
    simp at hprof
  | some p0 =>
    rw [hq] at hprof
    simp at hprof
    have hp0 : p0.id = u := by
      have h := List.find?_some hq
      simpa using h
    simp [hp0, hprof]

/-- Witness for the C3 theorem at a concrete input. -/
theorem upsertAttendance_twice_mission_count_witness :
    (dbProfileOnly.attendance.countP (fun a => attKeyMatch a 1 2) = 0
      ∧ missionCountOf dbProfileOnly 2 = some 5)
    ∧ missionCountOf
        ((upsertAttendance ((upsertAttendance dbProfileOnly 1 2 true).1)
          1 2 true).1) 2 = some (5 + 1) :=
  ⟨⟨by decide, by decide⟩,
    upsertAttendance_twice_mission_count dbProfileOnly 1 2 5
      (by decide) (by decide)⟩

/-- A drink-keyed vote update preserves the drink id predicate. -/
theorem drinkIdMatch_update (i : Nat) (V : Int) (VB : List Nat)
    (x : DrinkRow) :
    ((if x.id == i then { x with votes := V, voted_by := VB } else x).id == i)
      = (x.id == i) := by
  cases hx : (x.id == i) <;> simp [hx]

/-- Effect of one voteForDrink on the stored row when the user has already
voted: every occurrence of the user leaves the voter set and the votes
counter drops by one, floored at 0. -/
theorem afterVote_step_voted (db : DB) (e0 : DrinkRow) (u : Nat)
    (hf : db.drinks.find? (fun e => e.id == e0.id) = some e0)
    (hv : e0.voted_by.contains u = true) :
    (afterVote db e0.id u).drinks.find? (fun e => e.id == e0.id) = some
      { e0 with votes := max 0 (e0.votes - 1),
                voted_by := e0.voted_by.filter (fun i => !(i == u)) } := by
  simp only [afterVote, voteForDrink, hf, hv, if_true]
  rw [find?_map_pres (fun e => e.id == e0.id)
    (fun e => if e.id == e0.id then
      { e with votes := max 0 (e0.votes - 1),
               voted_by := e0.voted_by.filter (fun i => !(i == u)) } else e)
    (drinkIdMatch_update e0.id _ _) db.drinks, hf]
  simp

/-- Effect of one voteForDrink on the stored row when the user has not yet
voted: the user id is appended to the voter set and the votes counter grows
by one. -/
theorem afterVote_step_unvoted (db : DB) (e0 : DrinkRow) (u : Nat)
    (hf : db.drinks.find? (fun e => e.id == e0.id) = some e0)
    (hv : e0.voted_by.contains u = false) :
    (afterVote db e0.id u).drinks.find? (fun e => e.id == e0.id) = some
      { e0 with votes := e0.votes + 1, voted_by := e0.voted_by ++ [u] } := by
  simp only [afterVote, voteForDrink, hf, hv, Bool.false_eq_true, if_false]
  rw [find?_map_pres (fun e => e.id == e0.id)
    (fun e => if e.id == e0.id then
      { e with votes := e0.votes + 1, voted_by := e0.voted_by ++ [u] }
      else e)
    (drinkIdMatch_update e0.id _ _) db.drinks, hf]
  simp

/-- C5 amended: provided the votes counter is non-negative and is at least 1
whenever the user is already in the voter set (which holds for every state
the toggle itself builds from a fresh drink), applying voteForDrink twice
restores the original votes count and the original voter set. -/
theorem voteForDrink_twice_restores (db : DB) (d : DrinkRow) (u : Nat)
    (hf : db.drinks.find? (fun e => e.id == d.id) = some d)
    (hnn : 0 ≤ d.votes)
    (hpos : u ∈ d.voted_by → 1 ≤ d.votes) :
    ∃ d2, drinkById (afterVote (afterVote db d.id u) d.id u) d.id = some d2
      ∧ d2.votes = d.votes
      ∧ ∀ v, v ∈ d2.voted_by ↔ v ∈ d.voted_by := by
  cases hv : d.voted_by.contains u with
  | true =>
    have hmem : u ∈ d.voted_by := by
      simpa [List.contains] using hv
    have hge : 1 ≤ d.votes := hpos hmem
    have h1 := afterVote_step_voted db d u hf hv
    have hv1 : ((⟨d.id, max 0 (d.votes - 1),
        d.voted_by.filter (fun i => !(i == u))⟩ : DrinkRow)).voted_by.contains
          u = false := by
      simp [List.contains, List.mem_filter]
    have h2 := afterVote_step_unvoted (afterVote db d.id u)
      ⟨d.id, max 0 (d.votes - 1), d.voted_by.filter (fun i => !(i == u))⟩
      u h1 hv1
    refine ⟨⟨d.id, max 0 (d.votes - 1) + 1,
      d.voted_by.filter (fun i => !(i == u)) ++ [u]⟩, h2, ?_, ?_⟩
    · show max 0 (d.votes - 1) + 1 = d.votes
      omega
    · intro v
      show v ∈ d.voted_by.filter (fun i => !(i == u)) ++ [u] ↔ v ∈ d.voted_by
      simp only [List.mem_append, List.mem_filter, List.mem_singleton,
        Bool.not_eq_true', beq_eq_false_iff_ne]
      constructor
      · rintro (⟨h, _⟩ | rfl)
        · exact h
        · exact hmem
      · intro h
        by_cases hvu : v = u
        · exact Or.inr hvu
        · exact Or.inl ⟨h, hvu⟩
  | false =>
    have hnmem : u ∉ d.voted_by := by
      simpa [List.contains] using hv
    have h1 := afterVote_step_unvoted db d u hf hv
    have hv1 : ((⟨d.id, d.votes + 1, d.voted_by ++ [u]⟩
        : DrinkRow)).voted_by.contains u = true := by
      simp [List.contains]
    have h2 := afterVote_step_voted (afterVote db d.id u)
      ⟨d.id, d.votes + 1, d.voted_by ++ [u]⟩ u h1 hv1
    have hfl : (d.voted_by ++ [u]).filter (fun i => !(i == u)) =
        d.voted_by := by
      rw [List.filter_append]
      have hself : d.voted_by.filter (fun i => !(i == u)) = d.voted_by :=
        List.filter_eq_self.mpr (fun a ha => by
          simp only [Bool.not_eq_true', beq_eq_false_iff_ne]
          rintro rfl
          exact hnmem ha)
      simp [hself]
    refine ⟨⟨d.id, max 0 (d.votes + 1 - 1),
      (d.voted_by ++ [u]).filter (fun i => !(i == u))⟩, h2, ?_, ?_⟩
    · show max 0 (d.votes + 1 - 1) = d.votes
      omega
    · intro v
      show v ∈ (d.voted_by ++ [u]).filter (fun i => !(i == u)) ↔
        v ∈ d.voted_by
      rw [hfl]

/-- Witness for the amended C5 theorem at a concrete input. -/
theorem voteForDrink_twice_restores_witness :
    (dbDrinkPair.drinks.find? (fun e => e.id == 1) = some ⟨1, 2, [5, 9]⟩
      ∧ 0 ≤ (2 : Int) ∧ ((9 : Nat) ∈ [5, 9] → 1 ≤ (2 : Int)))
    ∧ ∃ d2, drinkById (afterVote (afterVote dbDrinkPair 1 9) 1 9) 1 = some d2
      ∧ d2.votes = 2 ∧ ∀ v, v ∈ d2.voted_by ↔ v ∈ [5, 9] :=
  ⟨⟨by decide, by decide, by decide⟩,
    voteForDrink_twice_restores dbDrinkPair ⟨1, 2, [5, 9]⟩ 9
      (by decide) (by decide) (by decide)⟩

/-- C9: for an existing selection line, the update-quantity handler deletes
the line when the new quantity is non-positive, so a subsequent
getUserSelections for that (spot, user) no longer includes it; with a
positive new quantity it upserts the line, leaving exactly one row of its
key, carrying the new quantity and the line's existing unit_price. -/
theorem handleUpdateQuantity_behavior (db : DB) (sel : SelectionRow)
    (n : Int) (_hmem : sel ∈ db.selections)
    (huniq : db.selections.countP
      (fun l => selKeyMatch l sel.spot_id sel.user_id sel.drink_brand_id)
        ≤ 1) :
    (n ≤ 0 → ∀ r ∈ getUserSelections (handleUpdateQuantity db sel n)
        sel.spot_id sel.user_id, r.id ≠ sel.id)
    ∧ (0 < n →
        ((handleUpdateQuantity db sel n).selections.countP
          (fun l => selKeyMatch l sel.spot_id sel.user_id
            sel.drink_brand_id) = 1)
        ∧ ∀ l ∈ (handleUpdateQuantity db sel n).selections,
            selKeyMatch l sel.spot_id sel.user_id sel.drink_brand_id = true →
            l.quantity = n ∧ l.unit_price = sel.unit_price) := by
  constructor
  · intro hn r hr
    have hdel : handleUpdateQuantity db sel n = deleteSelection db sel.id :=
      by simp [handleUpdateQuantity, hn]
    rw [hdel] at hr
    simp only [getUserSelections, deleteSelection,
      update_payment_drink_total, List.mem_reverse, List.mem_filter] at hr
    have hid := hr.1.2
    simp only [Bool.not_eq_true', beq_eq_false_iff_ne] at hid
    exact hid
  · intro hn
    have hup : handleUpdateQuantity db sel n =
        afterUpsertSelection db sel.spot_id sel.user_id sel.drink_brand_id
          n sel.unit_price := by
      simp [handleUpdateQuantity, not_le.mpr hn]
    rw [hup]
    refine ⟨afterUpsertSelection_countP_one db sel.spot_id sel.user_id
      sel.drink_brand_id n sel.unit_price hn huniq, ?_⟩
    intro l hl hk
    have h := afterUpsertSelection_fields db sel.spot_id sel.user_id
      sel.drink_brand_id n sel.unit_price hn l hl hk
    exact ⟨h.1, h.2.1⟩

/-- Witness for the C9 theorem at concrete inputs covering the delete branch
and the positive-quantity branch. -/
theorem handleUpdateQuantity_behavior_witness :
    ((⟨10, 1, 2, 3, 1, 100, 100⟩ : SelectionRow) ∈ dbOneSelection.selections
      ∧ dbOneSelection.selections.countP (fun l => selKeyMatch l 1 2 3) ≤ 1)
    ∧ (∀ r ∈ getUserSelections
        (handleUpdateQuantity dbOneSelection ⟨10, 1, 2, 3, 1, 100, 100⟩ 0)
        1 2, r.id ≠ 10)
    ∧ ((handleUpdateQuantity dbOneSelection
        ⟨10, 1, 2, 3, 1, 100, 100⟩ 4).selections.countP
          (fun l => selKeyMatch l 1 2 3) = 1) :=
  ⟨⟨by decide, by decide⟩,
    (handleUpdateQuantity_behavior dbOneSelection ⟨10, 1, 2, 3, 1, 100, 100⟩
      0 (by decide) (by decide)).1 (by decide),
    ((handleUpdateQuantity_behavior dbOneSelection ⟨10, 1, 2, 3, 1, 100, 100⟩
      4 (by decide) (by decide)).2 (by decide)).1⟩

/-- C8 counterexample: confirming the invitation of user 2 for spot 1 while
that pair already has a payment row with status paid overwrites the stored
status to not_paid, because the bootstrap upsert merges status on conflict. -/
theorem confirm_flow_overwrites_paid_status :
    (paymentFor dbPaidPayment 1 2).map (fun p => p.status) =
      some PaymentStatus.paid
    ∧ (paymentFor
        ((handleRSVP dbPaidPayment 1 InvitationStatus.confirmed 1 2 false).1)
        1 2).map (fun p => p.status) ≠ some PaymentStatus.paid := by decide

end Brocode
